import Mathlib

/-!
Verification of the CVE-2024-6387 checker (`CVE-2024-6387_Check.py`).

The network-facing functions `create_socket`, `get_ssh_banner` and
`check_vulnerability` are embedded shallowly: every outcome that the network
can produce (connection success/failure, the data or exception delivered by
each `recv`, the wall-clock elapsed times observed by `time.time()`) is an
explicit input collected in an `Env` record, and the functions are pure Lean
functions of that record.  Python exceptions are modelled by `Except PyExn`;
an uncaught exception escaping `check_vulnerability` is the `.error` case of
its result.  Socket operations performed on each socket are recorded in an
operation trace (`Op`), so that properties such as "the connection is closed
on every path" or "the read timeout is set to this exact value" are statable.

In Python, `socket.settimeout(t)` bounds *all* subsequent blocking operations
on the socket, so a `recv` is modelled as: the environment says after which
delay the data would arrive (or that the read raises some other error), and
the read returns the data iff that delay is within the current timeout of
the socket, raising `socket.timeout` otherwise.
-/

deriving instance DecidableEq for Except

namespace CVECheck

/-- Substring search on character lists: does the list contain `pat` as a
contiguous sublist?  Mirrors the Python expression `pat in s` on strings. -/
def hasSubAux (pat : List Char) : List Char → Bool
  | [] => pat.isEmpty
  | c :: cs => pat.isPrefixOf (c :: cs) || hasSubAux pat cs

/-- The Python `pat in s` substring containment, case-sensitive. -/
def strContains (s pat : String) : Bool := hasSubAux pat.data s.data

/-- The ASCII whitespace characters removed by the Python `str.strip()`. -/
def pySpace (c : Char) : Bool :=
  c == ' ' || c == '\t' || c == '\n' || c == '\r' || c == '\x0b' || c == '\x0c'

/-- The Python `s.strip()`: remove leading and trailing whitespace. -/
def pyStrip (s : String) : String :=
  String.mk (((s.data.dropWhile pySpace).reverse.dropWhile pySpace).reverse)

/-- The distinct reasons a connection attempt can fail
(`socket.connect` raising inside `create_socket`). -/
inductive ConnectErr where
  | refused
  | unreachable
  | timedOutC
  | resolution
deriving DecidableEq, Repr

/-- A Python exception as far as this program distinguishes them:
`socket.timeout` (whose `str` is `"timed out"`) versus anything else,
carrying its message text. -/
inductive PyExn where
  | timedOut
  | other (msg : String)
deriving DecidableEq, Repr

/-- The Python `str(e)` text of the modelled exceptions. -/
def pyStr : PyExn → String
  | .timedOut => "timed out"
  | .other m => m

/-- What the environment supplies for one `recv` call: either data that
would arrive after `delay` seconds, or a non-timeout exception. -/
inductive RecvEv where
  | arrives (delay : ℚ) (data : String)
  | fails (msg : String)
deriving DecidableEq, Repr

/-- Semantics of `sock.recv(1024).decode(errors=ignore)` under the current
timeout setting of the socket: data arriving within the timeout is returned,
otherwise `socket.timeout` is raised; other failures raise as given. -/
def recvResult (timeoutSetting : ℚ) : RecvEv → Except PyExn String
  | .arrives d s => if d ≤ timeoutSetting then .ok s else .error .timedOut
  | .fails m => .error (.other m)

/-- An operation performed on a socket, for the operation traces. -/
inductive Op where
  | recvOp
  | sendOp (data : String)
  | settimeoutOp (v : ℚ)
  | closeOp
deriving DecidableEq, Repr

/-- The connected socket object: `create_socket` selects the address family
from the address text and sets the timeout before connecting; that timeout
stays in force for later reads on the socket. -/
structure Socket where
  family6 : Bool
  timeout : ℚ
deriving DecidableEq, Repr

/-- Model of `create_socket(ip, port, timeout)`: on success returns the socket with
the timeout already set (`settimeout` precedes `connect`); on *any* failure
returns `None` — the failure reason is discarded. -/
def create_socket (ip : String) (port : Nat) (timeout : ℚ)
    (outcome : Option ConnectErr) : Option Socket :=
  match outcome with
  | some _ => none
  | none => some { family6 := strContains ip ":", timeout := timeout }

/-- The literal fallback line sent when the first banner read is empty. -/
def helpString : String := "HELP\n"

/-- Body of the `try` block of `get_ssh_banner` (everything before the
`except`/`finally`): the returned value or the exception that escapes the
body, together with the socket operations performed. -/
def bannerBody (sockTimeout : ℚ) (use_help_request : Bool)
    (r1 : RecvEv) (sendOutcome : Option String) (r2 : RecvEv) :
    Except PyExn String × List Op :=
  match recvResult sockTimeout r1 with
  | .error e => (.error e, [Op.recvOp])
  | .ok s =>
    let banner := pyStrip s
    if banner != "" || !use_help_request then
      (.ok banner, [Op.recvOp])
    else
      match sendOutcome with
      | some m => (.error (.other m), [Op.recvOp, Op.sendOp helpString])
      | none =>
        match recvResult sockTimeout r2 with
        | .error e => (.error e, [Op.recvOp, Op.sendOp helpString, Op.recvOp])
        | .ok s2 => (.ok (pyStrip s2), [Op.recvOp, Op.sendOp helpString, Op.recvOp])

/-- Model of `get_ssh_banner(sock, use_help_request)`: the `except Exception` clause
turns a raised exception into its text, and the `finally` clause closes the
socket on every path. -/
def get_ssh_banner (sockTimeout : ℚ) (use_help_request : Bool)
    (r1 : RecvEv) (sendOutcome : Option String) (r2 : RecvEv) :
    String × List Op :=
  let p := bannerBody sockTimeout use_help_request r1 sendOutcome r2
  ((match p.1 with
    | .ok b => b
    | .error e => pyStr e),
   p.2 ++ [Op.closeOp])

/-- All network outcomes one invocation of `check_vulnerability` can
observe, in program order: the first connection attempt, the banner reads
and the optional fallback send, the reverse-DNS answer, the grace-probe
re-connection, the greeting read, the elapsed time when `settimeout` is
called, the grace read, and the elapsed time measured after it. -/
structure Env where
  connect1 : Option ConnectErr
  bannerRecv1 : RecvEv
  helpSendOutcome : Option String
  bannerRecv2 : RecvEv
  dns : Option String
  connect2 : Option ConnectErr
  greetRecv : RecvEv
  elapsed1 : ℚ
  graceRecv : RecvEv
  elapsed2 : ℚ
deriving DecidableEq, Repr

/-- One tuple put on `result_queue`:
`(ip, port, status, message, hostname)`. -/
structure ProbeResult where
  ip : String
  port : Nat
  status : String
  message : String
  hostname : Option String
deriving DecidableEq, Repr

/-- What one run of `check_vulnerability` did: the results enqueued, the
operations on the banner socket and those on the grace-probe socket. -/
structure RunOutcome where
  results : List ProbeResult
  bannerOps : List Op
  graceOps : List Op
deriving DecidableEq, Repr

/-- Python truthiness of the `grace_time_check` argument
(`None` when `-g` is absent, an `int` otherwise). -/
def graceTruthy : Option Int → Bool
  | none => false
  | some g => g != 0

/-- The integer value of `grace_time_check` where the probe arithmetic
uses it. -/
def graceInt : Option Int → Int
  | none => 0
  | some g => g

/-- The vulnerable-version table, verbatim from the source. -/
def vulnerable_versions : List String := [
  "SSH-2.0-OpenSSH_1",
  "SSH-2.0-OpenSSH_2",
  "SSH-2.0-OpenSSH_3",
  "SSH-2.0-OpenSSH_4.0",
  "SSH-2.0-OpenSSH_4.1",
  "SSH-2.0-OpenSSH_4.2",
  "SSH-2.0-OpenSSH_4.3",
  "SSH-2.0-OpenSSH_4.4",
  "SSH-2.0-OpenSSH_8.5",
  "SSH-2.0-OpenSSH_8.6",
  "SSH-2.0-OpenSSH_8.7",
  "SSH-2.0-OpenSSH_8.8",
  "SSH-2.0-OpenSSH_8.9",
  "SSH-2.0-OpenSSH_9.0",
  "SSH-2.0-OpenSSH_9.1",
  "SSH-2.0-OpenSSH_9.2",
  "SSH-2.0-OpenSSH_9.3",
  "SSH-2.0-OpenSSH_9.4",
  "SSH-2.0-OpenSSH_9.5",
  "SSH-2.0-OpenSSH_9.6",
  "SSH-2.0-OpenSSH_9.7"]

/-- The patched-version table, verbatim from the source. -/
def patched_versions : List String := [
  "SSH-2.0-OpenSSH_8.9p1 Ubuntu-3ubuntu0.10",
  "SSH-2.0-OpenSSH_9.3p1 Ubuntu-3ubuntu3.6",
  "SSH-2.0-OpenSSH_9.6p1 Ubuntu-3ubuntu13.3",
  "SSH-2.0-OpenSSH_9.6p1 Ubuntu-3ubuntu13.4",
  "SSH-2.0-OpenSSH_9.6p1 Ubuntu-3ubuntu13.5",
  "SSH-2.0-OpenSSH_9.3p1 Ubuntu-1ubuntu3.6",
  "SSH-2.0-OpenSSH_9.2p1 Debian-2+deb12u3",
  "SSH-2.0-OpenSSH_8.4p1 Debian-5+deb11u3",
  "SSH-2.0-OpenSSH_9.7p1 Debian-7",
  "SSH-2.0-OpenSSH_9.6 FreeBSD-20240701",
  "SSH-2.0-OpenSSH_9.7 FreeBSD-20240701"]

/-- Model of `check_vulnerability(ip, port, timeout, grace_time_check,
use_help_request, dns_resolve, result_queue)`.  The parameter `fmt1` models
the one-decimal float formatting used in the vulnerable message.  The `.error` case is an exception escaping
the function uncaught (so nothing was put on the queue): this happens only
inside the grace-time branch, where `sshsock.recv` is called on the result
of the re-connection *before* the `if sshsock:` None-check (an
`AttributeError` when the re-connection failed), and where only
`socket.timeout` is caught around the second read. -/
def check_vulnerability (ip : String) (port : Nat) (timeout : ℚ)
    (grace_time_check : Option Int) (use_help_request dns_resolve : Bool)
    (fmt1 : ℚ → String) (env : Env) : Except PyExn RunOutcome :=
  match create_socket ip port timeout env.connect1 with
  | none => .ok ⟨[⟨ip, port, "closed", "Port closed", some ip⟩], [], []⟩
  | some sshsock =>
    let p := get_ssh_banner sshsock.timeout use_help_request
      env.bannerRecv1 env.helpSendOutcome env.bannerRecv2
    let banner := p.1
    let bops := p.2
    if !(strContains banner "SSH-2.0") then
      .ok ⟨[⟨ip, port, "failed",
        "Failed to retrieve SSH banner: " ++ banner, some ip⟩], bops, []⟩
    else if !(strContains banner "SSH-2.0-OpenSSH") then
      .ok ⟨[⟨ip, port, "unknown", "(banner: " ++ banner ++ ")", some ip⟩],
        bops, []⟩
    else
      let hostname := if dns_resolve then env.dns else none
      if vulnerable_versions.any (fun version => strContains banner version)
          && !(patched_versions.contains banner) then
        if graceTruthy grace_time_check then
          match create_socket ip port timeout env.connect2 with
          | none => .error (PyExn.other "AttributeError")
          | some sshsock2 =>
            match recvResult sshsock2.timeout env.greetRecv with
            | .error e => .error e
            | .ok _ =>
              let newTimeout : ℚ :=
                (graceInt grace_time_check : ℚ) - env.elapsed1 + 4
              let gops := [Op.recvOp, Op.settimeoutOp newTimeout,
                Op.recvOp, Op.closeOp]
              match recvResult newTimeout env.graceRecv with
              | .ok _ =>
                .ok ⟨[⟨ip, port, "vulnerable",
                  "(running " ++ banner ++
                  ") vulnerable and LoginGraceTime remediation not done (Session was closed by server at "
                  ++ fmt1 env.elapsed2 ++ " seconds)", hostname⟩],
                  bops, gops⟩
              | .error .timedOut =>
                .ok ⟨[⟨ip, port, "likely_not_vulnerable",
                  "(running " ++ banner ++
                  " False negative possible depending on LoginGraceTime)",
                  hostname⟩], bops, gops⟩
              | .error (.other m) => .error (.other m)
        else
          .ok ⟨[⟨ip, port, "vulnerable", "(running " ++ banner ++ ")",
            hostname⟩], bops, []⟩
      else
        .ok ⟨[⟨ip, port, "not_vulnerable", "(running " ++ banner ++ ")",
          hostname⟩], bops, []⟩

/-- The banner string a run observes (reads on the first socket). -/
def bannerOf (t : ℚ) (u : Bool) (env : Env) : String :=
  (get_ssh_banner t u env.bannerRecv1 env.helpSendOutcome env.bannerRecv2).1

/-- The operation trace on the banner socket. -/
def bannerOpsOf (t : ℚ) (u : Bool) (env : Env) : List Op :=
  (get_ssh_banner t u env.bannerRecv1 env.helpSendOutcome env.bannerRecv2).2

/-- A benign environment: connections succeed, the banner arrives at once,
the grace-probe greeting arrives at once, the grace read returns at once. -/
def envBase : Env := {
  connect1 := none
  bannerRecv1 := RecvEv.arrives 0 "SSH-2.0-OpenSSH_9.6"
  helpSendOutcome := none
  bannerRecv2 := RecvEv.arrives 0 ""
  dns := none
  connect2 := none
  greetRecv := RecvEv.arrives 0 ""
  elapsed1 := 0
  graceRecv := RecvEv.arrives 0 ""
  elapsed2 := 2 }

/-- C9: for every failing connection attempt, whatever the reason, the
connector returns the uniform failure value `none`, and the task enqueues
exactly the `closed` result carrying the target address, with no exception
escaping (`.ok`). -/
theorem connect_failure_closed (ip : String) (port : Nat) (t : ℚ)
    (g : Option Int) (u d : Bool) (fmt1 : ℚ → String) (env : Env)
    (err : ConnectErr) (hc : env.connect1 = some err) :
    create_socket ip port t (some err) = none ∧
    check_vulnerability ip port t g u d fmt1 env =
      .ok ⟨[⟨ip, port, "closed", "Port closed", some ip⟩], [], []⟩ := by
  refine ⟨rfl, ?_⟩
  unfold check_vulnerability
  rw [hc]
  rfl

/-- Witness for C9 at a concrete unreachable target. -/
theorem connect_failure_closed_w :
    create_socket "192.0.2.1" 22 1 (some ConnectErr.timedOutC) = none ∧
    check_vulnerability "192.0.2.1" 22 1 none false false (fun _ => "")
        { envBase with connect1 := some ConnectErr.timedOutC } =
      .ok ⟨[⟨"192.0.2.1", 22, "closed", "Port closed", some "192.0.2.1"⟩],
        [], []⟩ :=
  connect_failure_closed "192.0.2.1" 22 1 none false false (fun _ => "")
    { envBase with connect1 := some ConnectErr.timedOutC }
    ConnectErr.timedOutC rfl

/-- C6: triage order.  A banner without `"SSH-2.0"` yields the `failed`
verdict; a banner with `"SSH-2.0"` but without `"SSH-2.0-OpenSSH"` yields
`unknown`.  In both cases the grace-probe trace is empty and the result does
not depend on the version tables or the grace setting. -/
theorem triage_order (ip : String) (port : Nat) (t : ℚ) (g : Option Int)
    (u d : Bool) (fmt1 : ℚ → String) (env : Env)
    (hc1 : env.connect1 = none) :
    (strContains (bannerOf t u env) "SSH-2.0" = false →
      check_vulnerability ip port t g u d fmt1 env =
        .ok ⟨[⟨ip, port, "failed",
          "Failed to retrieve SSH banner: " ++ bannerOf t u env, some ip⟩],
          bannerOpsOf t u env, []⟩) ∧
    (strContains (bannerOf t u env) "SSH-2.0" = true →
      strContains (bannerOf t u env) "SSH-2.0-OpenSSH" = false →
      check_vulnerability ip port t g u d fmt1 env =
        .ok ⟨[⟨ip, port, "unknown",
          "(banner: " ++ bannerOf t u env ++ ")", some ip⟩],
          bannerOpsOf t u env, []⟩) := by
  constructor
  · intro h
    simp only [bannerOf] at h
    simp [check_vulnerability, create_socket, hc1, bannerOf, bannerOpsOf, h]
  · intro h1 h2
    simp only [bannerOf] at h1 h2
    simp [check_vulnerability, create_socket, hc1, bannerOf, bannerOpsOf,
      h1, h2]

/-- Witness for C6, `unknown` case, on a non-OpenSSH banner. -/
theorem triage_order_w :
    check_vulnerability "h" 22 1 none false false (fun _ => "")
        { envBase with bannerRecv1 := RecvEv.arrives 0 "SSH-2.0-libssh_0.9" } =
      .ok ⟨[⟨"h", 22, "unknown", "(banner: SSH-2.0-libssh_0.9)", some "h"⟩],
        [Op.recvOp, Op.closeOp], []⟩ :=
  (triage_order "h" 22 1 none false false (fun _ => "")
    { envBase with bannerRecv1 := RecvEv.arrives 0 "SSH-2.0-libssh_0.9" }
    rfl).2 (by decide) (by decide)

/-- Transitivity of `List.isPrefixOf` over `Char` lists. -/
lemma isPrefixOf_trans {p q l : List Char} (h1 : p.isPrefixOf q = true)
    (h2 : q.isPrefixOf l = true) : p.isPrefixOf l = true := by
  induction p generalizing q l with
  | nil => simp [List.isPrefixOf]
  | cons a as ih =>
    cases q with
    | nil => simp [List.isPrefixOf] at h1
    | cons b bs =>
      cases l with
      | nil => simp [List.isPrefixOf] at h2
      | cons c cs =>
        simp only [List.isPrefixOf, Bool.and_eq_true, beq_iff_eq] at h1 h2 ⊢
        exact ⟨h1.1.trans h2.1, ih h1.2 h2.2⟩

/-- If `p` is a prefix of `q` and `q` occurs in `l`, then `p` occurs
in `l`. -/
lemma hasSubAux_mono {p q : List Char} (hpq : p.isPrefixOf q = true) :
    ∀ {l : List Char}, hasSubAux q l = true → hasSubAux p l = true := by
  intro l
  induction l with
  | nil =>
    intro h
    simp only [hasSubAux, List.isEmpty_iff] at h ⊢
    subst h
    cases p with
    | nil => rfl
    | cons a as => simp [List.isPrefixOf] at hpq
  | cons c cs ih =>
    intro h
    simp only [hasSubAux, Bool.or_eq_true] at h ⊢
    rcases h with h | h
    · exact Or.inl (isPrefixOf_trans hpq h)
    · exact Or.inr (ih h)

/-- A banner containing a pattern also contains every prefix of that
pattern. -/
lemma strContains_of_isPrefixOf {s p q : String}
    (h : p.data.isPrefixOf q.data = true) (hq : strContains s q = true) :
    strContains s p = true :=
  hasSubAux_mono h hq

/-- C4: a banner equal to any patched-table entry is classified
`not_vulnerable`, for every grace setting — even though a vulnerable prefix
may occur in it as a substring, the full-string membership test in the
patched table wins. -/
theorem patched_exact_not_vulnerable (ip : String) (port : Nat) (t : ℚ)
    (g : Option Int) (u d : Bool) (fmt1 : ℚ → String) (env : Env)
    (b : String) (hb : b ∈ patched_versions)
    (hc1 : env.connect1 = none) (hbn : bannerOf t u env = b) :
    check_vulnerability ip port t g u d fmt1 env =
      .ok ⟨[⟨ip, port, "not_vulnerable", "(running " ++ b ++ ")",
        if d then env.dns else none⟩], bannerOpsOf t u env, []⟩ := by
  have hprops : ∀ x ∈ patched_versions,
      (strContains x "SSH-2.0" && strContains x "SSH-2.0-OpenSSH" &&
        patched_versions.contains x) = true := by decide
  have h := hprops b hb
  simp only [Bool.and_eq_true] at h
  obtain ⟨⟨h20, hOp⟩, _⟩ := h
  simp only [bannerOf] at hbn
  simp [check_vulnerability, create_socket, hc1, bannerOf, bannerOpsOf,
    hbn, h20, hOp, hb]

/-- Witness for C4: a patched Ubuntu banner that also contains the
vulnerable prefix `SSH-2.0-OpenSSH_9.6`, with the grace check on. -/
theorem patched_exact_not_vulnerable_w :
    check_vulnerability "h" 22 1 (some 120) false false (fun _ => "")
        { envBase with bannerRecv1 :=
            RecvEv.arrives 0 "SSH-2.0-OpenSSH_9.6p1 Ubuntu-3ubuntu13.3" } =
      .ok ⟨[⟨"h", 22, "not_vulnerable",
        "(running SSH-2.0-OpenSSH_9.6p1 Ubuntu-3ubuntu13.3)", none⟩],
        [Op.recvOp, Op.closeOp], []⟩ :=
  patched_exact_not_vulnerable "h" 22 1 (some 120) false false (fun _ => "")
    { envBase with bannerRecv1 :=
        RecvEv.arrives 0 "SSH-2.0-OpenSSH_9.6p1 Ubuntu-3ubuntu13.3" }
    "SSH-2.0-OpenSSH_9.6p1 Ubuntu-3ubuntu13.3" (by decide) rfl (by decide)

/-- C5: with the grace-time check disabled, an OpenSSH banner containing a
vulnerable-table entry and not equal to any patched entry is classified
`vulnerable` with the raw banner in the message; otherwise (no vulnerable
entry contained, or exact patched match) it is `not_vulnerable`. -/
theorem openssh_version_classification (ip : String) (port : Nat) (t : ℚ)
    (g : Option Int) (u d : Bool) (fmt1 : ℚ → String) (env : Env)
    (b : String) (hc1 : env.connect1 = none) (hbn : bannerOf t u env = b)
    (hOp : strContains b "SSH-2.0-OpenSSH" = true)
    (hg : graceTruthy g = false) :
    (vulnerable_versions.any (fun version => strContains b version) = true →
      patched_versions.contains b = false →
      check_vulnerability ip port t g u d fmt1 env =
        .ok ⟨[⟨ip, port, "vulnerable", "(running " ++ b ++ ")",
          if d then env.dns else none⟩], bannerOpsOf t u env, []⟩) ∧
    (vulnerable_versions.any (fun version => strContains b version) = false ∨
        patched_versions.contains b = true →
      check_vulnerability ip port t g u d fmt1 env =
        .ok ⟨[⟨ip, port, "not_vulnerable", "(running " ++ b ++ ")",
          if d then env.dns else none⟩], bannerOpsOf t u env, []⟩) := by
  have h20 : strContains b "SSH-2.0" = true :=
    strContains_of_isPrefixOf (by decide) hOp
  simp only [bannerOf] at hbn
  constructor
  · intro hV hP
    have hV2 : ∃ v ∈ vulnerable_versions, strContains b v = true := by
      simpa using hV
    have hP2 : b ∉ patched_versions := by simpa using hP
    simp [check_vulnerability, create_socket, hc1, bannerOf, bannerOpsOf,
      hbn, h20, hOp, hV2, hP2, hg]
  · intro hNV
    rcases hNV with hV | hP
    · have hV2 : ∀ v ∈ vulnerable_versions, ¬ strContains b v = true := by
        simpa using hV
      simp [check_vulnerability, create_socket, hc1, bannerOf, bannerOpsOf,
        hbn, h20, hOp, hg]
      intro x hx hsc
      exact absurd hsc (hV2 x hx)
    · have hP2 : b ∈ patched_versions := by simpa using hP
      simp [check_vulnerability, create_socket, hc1, bannerOf, bannerOpsOf,
        hbn, h20, hOp, hP2, hg]

/-- Witness for C5: banner `SSH-2.0-OpenSSH_9.6`, grace check absent. -/
theorem openssh_version_classification_w :
    check_vulnerability "192.0.2.1" 22 1 none false false (fun _ => "")
        envBase =
      .ok ⟨[⟨"192.0.2.1", 22, "vulnerable", "(running SSH-2.0-OpenSSH_9.6)",
        none⟩], [Op.recvOp, Op.closeOp], []⟩ :=
  (openssh_version_classification "192.0.2.1" 22 1 none false false
    (fun _ => "") envBase "SSH-2.0-OpenSSH_9.6" rfl rfl (by decide)
    rfl).1 (by decide) (by decide)

/-- C10: `grace_time_check = 0` is falsy, so the grace probe is skipped
entirely: a version-vulnerable banner is immediately `vulnerable`, the
grace-socket trace is empty, and the run is identical to the one with the
flag absent (`None`). -/
theorem grace_zero_disables_probe (ip : String) (port : Nat) (t : ℚ)
    (u d : Bool) (fmt1 : ℚ → String) (env : Env) (b : String)
    (hc1 : env.connect1 = none) (hbn : bannerOf t u env = b)
    (hOp : strContains b "SSH-2.0-OpenSSH" = true)
    (hV : vulnerable_versions.any (fun version => strContains b version) = true)
    (hP : patched_versions.contains b = false) :
    graceTruthy (some 0) = false ∧
    check_vulnerability ip port t (some 0) u d fmt1 env =
      .ok ⟨[⟨ip, port, "vulnerable", "(running " ++ b ++ ")",
        if d then env.dns else none⟩], bannerOpsOf t u env, []⟩ ∧
    check_vulnerability ip port t none u d fmt1 env =
      check_vulnerability ip port t (some 0) u d fmt1 env := by
  have h20 : strContains b "SSH-2.0" = true :=
    strContains_of_isPrefixOf (by decide) hOp
  simp only [bannerOf] at hbn
  have hV2 : ∃ v ∈ vulnerable_versions, strContains b v = true := by
    simpa using hV
  have hP2 : b ∉ patched_versions := by simpa using hP
  have h2 : check_vulnerability ip port t (some 0) u d fmt1 env =
      .ok ⟨[⟨ip, port, "vulnerable", "(running " ++ b ++ ")",
        if d then env.dns else none⟩], bannerOpsOf t u env, []⟩ := by
    simp [check_vulnerability, create_socket, hc1, bannerOf, bannerOpsOf,
      hbn, h20, hOp, hV2, hP2, graceTruthy]
  have h3 : check_vulnerability ip port t none u d fmt1 env =
      .ok ⟨[⟨ip, port, "vulnerable", "(running " ++ b ++ ")",
        if d then env.dns else none⟩], bannerOpsOf t u env, []⟩ := by
    simp [check_vulnerability, create_socket, hc1, bannerOf, bannerOpsOf,
      hbn, h20, hOp, hV2, hP2, graceTruthy]
  exact ⟨rfl, h2, h3.trans h2.symm⟩

/-- Witness for C10: explicit `-g 0` on a vulnerable banner. -/
theorem grace_zero_disables_probe_w :
    graceTruthy (some 0) = false ∧
    check_vulnerability "192.0.2.1" 22 1 (some 0) false false (fun _ => "")
        envBase =
      .ok ⟨[⟨"192.0.2.1", 22, "vulnerable", "(running SSH-2.0-OpenSSH_9.6)",
        none⟩], [Op.recvOp, Op.closeOp], []⟩ ∧
    check_vulnerability "192.0.2.1" 22 1 none false false (fun _ => "")
        envBase =
      check_vulnerability "192.0.2.1" 22 1 (some 0) false false (fun _ => "")
        envBase :=
  grace_zero_disables_probe "192.0.2.1" 22 1 false false (fun _ => "")
    envBase "SSH-2.0-OpenSSH_9.6" rfl rfl (by decide) (by decide) (by decide)

/-- C2: the grace-period probe on a version-vulnerable candidate.  With the
re-connection succeeding and the greeting read-and-discarded, the second
read timeout is set to exactly `grace - elapsed + 4` (visible in the
grace-socket trace), and: if that read returns any data the verdict is
`vulnerable` with the elapsed time in the message; if it times out the
verdict is `likely_not_vulnerable`. -/
theorem grace_probe_behavior (ip : String) (port : Nat) (t : ℚ) (g : Int)
    (u d : Bool) (fmt1 : ℚ → String) (env : Env) (b : String)
    (hg : g ≠ 0) (hc1 : env.connect1 = none) (hbn : bannerOf t u env = b)
    (hOp : strContains b "SSH-2.0-OpenSSH" = true)
    (hV : vulnerable_versions.any (fun version => strContains b version) = true)
    (hP : patched_versions.contains b = false)
    (hc2 : env.connect2 = none)
    (hgreet : ∃ s0, recvResult t env.greetRecv = .ok s0) :
    (∀ m, recvResult ((g : ℚ) - env.elapsed1 + 4) env.graceRecv = .ok m →
      check_vulnerability ip port t (some g) u d fmt1 env =
        .ok ⟨[⟨ip, port, "vulnerable",
          "(running " ++ b ++
            ") vulnerable and LoginGraceTime remediation not done (Session was closed by server at "
            ++ fmt1 env.elapsed2 ++ " seconds)",
          if d then env.dns else none⟩],
          bannerOpsOf t u env,
          [Op.recvOp, Op.settimeoutOp ((g : ℚ) - env.elapsed1 + 4),
            Op.recvOp, Op.closeOp]⟩) ∧
    (recvResult ((g : ℚ) - env.elapsed1 + 4) env.graceRecv =
        .error PyExn.timedOut →
      check_vulnerability ip port t (some g) u d fmt1 env =
        .ok ⟨[⟨ip, port, "likely_not_vulnerable",
          "(running " ++ b ++
            " False negative possible depending on LoginGraceTime)",
          if d then env.dns else none⟩],
          bannerOpsOf t u env,
          [Op.recvOp, Op.settimeoutOp ((g : ℚ) - env.elapsed1 + 4),
            Op.recvOp, Op.closeOp]⟩) := by
  obtain ⟨s0, hs0⟩ := hgreet
  have h20 : strContains b "SSH-2.0" = true :=
    strContains_of_isPrefixOf (by decide) hOp
  have hgt : graceTruthy (some g) = true := by simp [graceTruthy, hg]
  have hV2 : ∃ v ∈ vulnerable_versions, strContains b v = true := by
    simpa using hV
  have hP2 : b ∉ patched_versions := by simpa using hP
  simp only [bannerOf] at hbn
  constructor
  · intro m hm
    simp [check_vulnerability, create_socket, hc1, hc2, bannerOf,
      bannerOpsOf, hbn, h20, hOp, hV2, hP2, hgt, hs0, hm, graceInt]
  · intro hm
    simp [check_vulnerability, create_socket, hc1, hc2, bannerOf,
      bannerOpsOf, hbn, h20, hOp, hV2, hP2, hgt, hs0, hm, graceInt]

/-- Witness for C2, `vulnerable` case: grace 120, greeting and second read
both return at once, elapsed 2 seconds reported. -/
theorem grace_probe_behavior_w :
    check_vulnerability "192.0.2.1" 22 1 (some 120) false false
        (fun _ => "2.0") envBase =
      .ok ⟨[⟨"192.0.2.1", 22, "vulnerable",
        "(running " ++ "SSH-2.0-OpenSSH_9.6" ++
          ") vulnerable and LoginGraceTime remediation not done (Session was closed by server at "
          ++ "2.0" ++ " seconds)",
        if false then envBase.dns else none⟩],
        bannerOpsOf 1 false envBase,
        [Op.recvOp, Op.settimeoutOp (((120 : Int) : ℚ) - envBase.elapsed1 + 4),
          Op.recvOp, Op.closeOp]⟩ :=
  (grace_probe_behavior "192.0.2.1" 22 1 120 false false
    (fun _ => "2.0") envBase "SSH-2.0-OpenSSH_9.6" (by decide) rfl rfl
    (by decide) (by decide) (by decide) rfl ⟨"", by decide⟩).1 ""
    (by norm_num [recvResult, envBase])

/-- The environment of the failing input for C1: everything as in a normal
vulnerable-candidate probe, except that the grace-period re-connection
fails. -/
def envCrash : Env := { envBase with connect2 := some ConnectErr.refused }

/-- C1 (failing input): with a version-vulnerable banner, the grace check
on, and the grace-period re-connection failing, `check_vulnerability`
raises an uncaught `AttributeError` (`sshsock.recv` is called on `None`
before the `if sshsock:` test) and puts nothing on the result queue —
violating the one-result-per-task invariant. -/
theorem task_result_crash :
    check_vulnerability "192.0.2.1" 22 1 (some 120) false false (fun _ => "")
      envCrash = .error (PyExn.other "AttributeError") := by decide

/-- An environment whose banner data arrives 5 seconds after connecting,
with a 1-second connect timeout. -/
def envLateBanner : Env :=
  { envBase with bannerRecv1 := RecvEv.arrives 5 "SSH-2.0-OpenSSH_9.6" }

/-- C3 (counterexample): the banner read IS bounded by the connect timeout.
With timeout 1 and banner data arriving after 5 seconds, the read raises
`socket.timeout` and the banner becomes the error text, not the data —
refuting the claim that the timeout applies to connection establishment
only. -/
theorem connect_timeout_bounds_reads_cex :
    bannerOf 1 false envLateBanner = "timed out" ∧
    bannerOf 1 false envLateBanner ≠ "SSH-2.0-OpenSSH_9.6" := by decide

/-- C3 (amended): `create_socket` sets the socket timeout before
connecting, and that timeout stays in force for the banner read: data
arriving later than the timeout yields the banner `"timed out"`. -/
theorem connect_timeout_bounds_reads (ip : String) (port : Nat) (t dl : ℚ)
    (s : String) (u : Bool) (env : Env)
    (hr : env.bannerRecv1 = RecvEv.arrives dl s) (hd : t < dl) :
    create_socket ip port t none = some ⟨strContains ip ":", t⟩ ∧
    bannerOf t u env = "timed out" := by
  refine ⟨rfl, ?_⟩
  have hrr : recvResult t (RecvEv.arrives dl s) = .error PyExn.timedOut := by
    simp [recvResult, not_le.mpr hd]
  simp [bannerOf, get_ssh_banner, bannerBody, hr, hrr, pyStr]

/-- Witness for the amended C3. -/
theorem connect_timeout_bounds_reads_w :
    create_socket "192.0.2.1" 22 1 none = some ⟨false, 1⟩ ∧
    bannerOf 1 false envLateBanner = "timed out" :=
  connect_timeout_bounds_reads "192.0.2.1" 22 1 5 "SSH-2.0-OpenSSH_9.6"
    false envLateBanner rfl (by decide)

/-- C7: the banner reader closes the connection on every return path (its
trace always ends with `closeOp`); any exception raised inside is returned
as its text; and downstream, when that text does not contain `"SSH-2.0"`,
the task reports the `failed` (banner-retrieval-failed) verdict. -/
theorem banner_reader_error_handling (t : ℚ) (u : Bool) (r1 : RecvEv)
    (se : Option String) (r2 : RecvEv) :
    ((get_ssh_banner t u r1 se r2).2.getLast? = some Op.closeOp) ∧
    (∀ e, (bannerBody t u r1 se r2).1 = .error e →
      (get_ssh_banner t u r1 se r2).1 = pyStr e) ∧
    (∀ (ip : String) (port : Nat) (g : Option Int) (d : Bool)
        (fmt1 : ℚ → String) (env : Env) (e : PyExn),
      env.connect1 = none →
      env.bannerRecv1 = r1 → env.helpSendOutcome = se →
      env.bannerRecv2 = r2 →
      (bannerBody t u r1 se r2).1 = .error e →
      strContains (pyStr e) "SSH-2.0" = false →
      check_vulnerability ip port t g u d fmt1 env =
        .ok ⟨[⟨ip, port, "failed",
          "Failed to retrieve SSH banner: " ++ pyStr e, some ip⟩],
          (get_ssh_banner t u r1 se r2).2, []⟩) := by
  refine ⟨?_, ?_, ?_⟩
  · simp only [get_ssh_banner]
    exact List.getLast?_concat _
  · intro e he
    simp only [get_ssh_banner, he]
  · intro ip port g d fmt1 env e hc1 h1 h2 h3 he hcon
    have hb : (get_ssh_banner t u r1 se r2).1 = pyStr e := by
      simp only [get_ssh_banner, he]
    simp [check_vulnerability, create_socket, hc1, h1, h2, h3, hb, hcon]

/-- The environment for the C7 witness: the first banner read raises. -/
def envB7 : Env := { envBase with bannerRecv1 := RecvEv.fails "boom" }

/-- Witness for C7: a raising first read returns the error text `"boom"`,
the trace still ends in `closeOp`, and the verdict is `failed`. -/
theorem banner_reader_error_handling_w :
    (get_ssh_banner 1 false (RecvEv.fails "boom") none
      (RecvEv.arrives 0 "")).2.getLast? = some Op.closeOp ∧
    (get_ssh_banner 1 false (RecvEv.fails "boom") none
      (RecvEv.arrives 0 "")).1 = "boom" ∧
    check_vulnerability "h" 22 1 none false false (fun _ => "") envB7 =
      .ok ⟨[⟨"h", 22, "failed",
        "Failed to retrieve SSH banner: " ++ "boom", some "h"⟩],
        (get_ssh_banner 1 false (RecvEv.fails "boom") none
          (RecvEv.arrives 0 "")).2, []⟩ := by
  have h := banner_reader_error_handling 1 false (RecvEv.fails "boom") none
    (RecvEv.arrives 0 "")
  exact ⟨h.1, h.2.1 (PyExn.other "boom") rfl,
    h.2.2 "h" 22 none false (fun _ => "") envB7 (PyExn.other "boom")
      rfl rfl rfl rfl rfl (by decide)⟩

/-- C8: the fallback line `"HELP\n"` is sent iff the first read succeeded
with empty stripped text and the fallback flag is set; in that case, with
the send succeeding, exactly one additional read is performed and its
stripped result returned; otherwise the stripped text of the first read is
returned, nothing is sent, and only one read is performed. -/
theorem fallback_help_request (t : ℚ) (u : Bool) (r1 : RecvEv)
    (se : Option String) (r2 : RecvEv) :
    (Op.sendOp "HELP\n" ∈ (get_ssh_banner t u r1 se r2).2 ↔
      (∃ s, recvResult t r1 = .ok s ∧ pyStrip s = "" ∧ u = true)) ∧
    (∀ s, recvResult t r1 = .ok s → pyStrip s = "" → u = true → se = none →
      (get_ssh_banner t u r1 se r2).2.count Op.recvOp = 2 ∧
      ∀ s2, recvResult t r2 = .ok s2 →
        (get_ssh_banner t u r1 se r2).1 = pyStrip s2) ∧
    (∀ s, recvResult t r1 = .ok s → (pyStrip s ≠ "" ∨ u = false) →
      (get_ssh_banner t u r1 se r2).1 = pyStrip s ∧
      (∀ m, Op.sendOp m ∉ (get_ssh_banner t u r1 se r2).2) ∧
      (get_ssh_banner t u r1 se r2).2.count Op.recvOp = 1) := by
  cases hE : recvResult t r1 with
  | error e =>
    have hops : (get_ssh_banner t u r1 se r2).2 = [Op.recvOp, Op.closeOp] := by
      simp [get_ssh_banner, bannerBody, hE]
    refine ⟨?_, ?_, ?_⟩
    · rw [hops]
      constructor
      · intro hm
        simp at hm
      · rintro ⟨s1, hs1, -, -⟩
        simp at hs1
    · intro s1 hs1
      simp at hs1
    · intro s1 hs1
      simp at hs1
  | ok s =>
    by_cases hcond : (pyStrip s != "" || !u) = true
    · have hops : (get_ssh_banner t u r1 se r2).2 =
          [Op.recvOp, Op.closeOp] := by
        simp [get_ssh_banner, bannerBody, hE, hcond]
      have hval : (get_ssh_banner t u r1 se r2).1 = pyStrip s := by
        simp [get_ssh_banner, bannerBody, hE, hcond]
      refine ⟨?_, ?_, ?_⟩
      · rw [hops]
        constructor
        · intro hm
          simp at hm
        · rintro ⟨s1, hs1, hstrip1, hu1⟩
          injection hs1 with h1
          subst hu1
          rw [← h1] at hstrip1
          simp [hstrip1] at hcond
      · intro s1 hs1 hstrip1 hu1 hse
        injection hs1 with h1
        subst hu1
        rw [← h1] at hstrip1
        simp [hstrip1] at hcond
      · intro s1 hs1 hor
        injection hs1 with h1
        subst h1
        exact ⟨hval, fun m => by rw [hops]; simp, by rw [hops]; rfl⟩
    · have hstripe : pyStrip s = "" := by
        rcases Bool.or_eq_false_iff.mp (Bool.eq_false_iff.mpr hcond)
          with ⟨ha, -⟩
        simpa using ha
      have hu : u = true := by
        rcases Bool.or_eq_false_iff.mp (Bool.eq_false_iff.mpr hcond)
          with ⟨-, hb2⟩
        simpa using hb2
      have hcondF : (pyStrip s != "" || !u) = false := by
        simp [hstripe, hu]
      cases se with
      | some m =>
        have hops : (get_ssh_banner t u r1 (some m) r2).2 =
            [Op.recvOp, Op.sendOp "HELP\n", Op.closeOp] := by
          simp [get_ssh_banner, bannerBody, hE, hcondF, helpString]
        refine ⟨?_, ?_, ?_⟩
        · exact ⟨fun _ => ⟨s, rfl, hstripe, hu⟩, fun _ => by rw [hops]; simp⟩
        · intro s1 hs1 hstrip1 hu1 hse
          simp at hse
        · intro s1 hs1 hor
          injection hs1 with h1
          subst h1
          rcases hor with hne | hf
          · exact absurd hstripe hne
          · rw [hu] at hf
            simp at hf
      | none =>
        cases hE2 : recvResult t r2 with
        | error e2 =>
          have hops : (get_ssh_banner t u r1 none r2).2 =
              [Op.recvOp, Op.sendOp "HELP\n", Op.recvOp, Op.closeOp] := by
            simp [get_ssh_banner, bannerBody, hE, hE2, hcondF, helpString]
          refine ⟨?_, ?_, ?_⟩
          · exact ⟨fun _ => ⟨s, rfl, hstripe, hu⟩,
              fun _ => by rw [hops]; simp⟩
          · intro s1 hs1 hstrip1 hu1 hse
            refine ⟨by rw [hops]; rfl, ?_⟩
            intro s2 hs2
            simp at hs2
          · intro s1 hs1 hor
            injection hs1 with h1
            subst h1
            rcases hor with hne | hf
            · exact absurd hstripe hne
            · rw [hu] at hf
              simp at hf
        | ok s2 =>
          have hops : (get_ssh_banner t u r1 none r2).2 =
              [Op.recvOp, Op.sendOp "HELP\n", Op.recvOp, Op.closeOp] := by
            simp [get_ssh_banner, bannerBody, hE, hE2, hcondF, helpString]
          have hval : (get_ssh_banner t u r1 none r2).1 = pyStrip s2 := by
            simp [get_ssh_banner, bannerBody, hE, hE2, hcondF]
          refine ⟨?_, ?_, ?_⟩
          · exact ⟨fun _ => ⟨s, rfl, hstripe, hu⟩,
              fun _ => by rw [hops]; simp⟩
          · intro s1 hs1 hstrip1 hu1 hse
            refine ⟨by rw [hops]; rfl, ?_⟩
            intro s3 hs3
            injection hs3 with h3
            rw [← h3]
            exact hval
          · intro s1 hs1 hor
            injection hs1 with h1
            subst h1
            rcases hor with hne | hf
            · exact absurd hstripe hne
            · rw [hu] at hf
              simp at hf

/-- The environment for the C8 witness: empty first read, fallback flag on,
the second read returning the banner. -/
def envB8 : Env := { envBase with
  bannerRecv1 := RecvEv.arrives 0 ""
  bannerRecv2 := RecvEv.arrives 0 "SSH-2.0-OpenSSH_9.6" }

/-- Witness for C8: with an empty first read and the flag set, `HELP\n` is
sent, two reads happen, and the stripped text of the second read is
returned. -/
theorem fallback_help_request_w :
    Op.sendOp "HELP\n" ∈
      (get_ssh_banner 1 true (RecvEv.arrives 0 "") none
        (RecvEv.arrives 0 "SSH-2.0-OpenSSH_9.6")).2 ∧
    (get_ssh_banner 1 true (RecvEv.arrives 0 "") none
      (RecvEv.arrives 0 "SSH-2.0-OpenSSH_9.6")).2.count Op.recvOp = 2 ∧
    (get_ssh_banner 1 true (RecvEv.arrives 0 "") none
      (RecvEv.arrives 0 "SSH-2.0-OpenSSH_9.6")).1 = "SSH-2.0-OpenSSH_9.6" := by
  have h := fallback_help_request 1 true (RecvEv.arrives 0 "") none
    (RecvEv.arrives 0 "SSH-2.0-OpenSSH_9.6")
  have h2 := h.2.1 "" (by decide) (by decide) rfl rfl
  exact ⟨h.1.mpr ⟨"", by decide, by decide, rfl⟩, h2.1,
    h2.2 "SSH-2.0-OpenSSH_9.6" (by decide)⟩

end CVECheck
